import Mathlib

/-!
Shallow embedding of the autonomous desktop agent's core subsystems
(`src/vision/scanner.py`, `main.py`, `src/agent/brain.py`):
rectangle IoU, the hybrid merge engine, the accessibility-tree scanner,
the stuck-state screenshot comparison, the bounded execution loop,
the hierarchical plan state updates, and the action dispatcher.
-/

namespace Agent

/-! ### String helpers (Python `.lower()`, substring containment) -/

/-- Lowercase a string character by character, as Python `str.lower()`
does on the ASCII marker strings used by the agent. -/
def strLower (s : String) : String :=
  String.mk (s.data.map Char.toLower)

/-- Whether the pattern list occurs as a contiguous sublist at the front. -/
def startsList : List Char → List Char → Bool
  | [], _ => true
  | _ :: _, [] => false
  | p :: ps, c :: cs => p = c && startsList ps cs

/-- Whether the pattern occurs as a contiguous sublist anywhere. -/
def containsList : List Char → List Char → Bool
  | pat, [] => startsList pat []
  | pat, c :: cs => startsList pat (c :: cs) || containsList pat cs

/-- Python's `pat in s` substring test. -/
def strContains (s pat : String) : Bool :=
  containsList pat.data s.data

/-! ### Geometry: rectangles and IoU (`HybridScanner._calculate_iou`) -/

/-- An `(x, y, width, height)` rectangle in screen pixel space. -/
structure Rect where
  x : Int
  y : Int
  w : Int
  h : Int
deriving Repr, DecidableEq

/-- Intersection area of the two rectangles as computed by
`HybridScanner._calculate_iou` (0 when the boxes are strictly separated). -/
def interArea (r1 r2 : Rect) : Int :=
  if min (r1.x + r1.w) (r2.x + r2.w) < max r1.x r2.x ∨
      min (r1.y + r1.h) (r2.y + r2.h) < max r1.y r2.y then 0
  else
    (min (r1.x + r1.w) (r2.x + r2.w) - max r1.x r2.x) *
      (min (r1.y + r1.h) (r2.y + r2.h) - max r1.y r2.y)

/-- Union area as computed by `HybridScanner._calculate_iou`:
`box1_area + box2_area - intersection_area`. -/
def unionArea (r1 r2 : Rect) : Int :=
  r1.w * r1.h + r2.w * r2.h - interArea r1 r2

/-- `HybridScanner._calculate_iou`: intersection over union of two
`(x, y, width, height)` rectangles; `0` when the boxes do not overlap and
`0` when the union area is `0`. -/
def calculate_iou (r1 r2 : Rect) : ℚ :=
  if min (r1.x + r1.w) (r2.x + r2.w) < max r1.x r2.x ∨
      min (r1.y + r1.h) (r2.y + r2.h) < max r1.y r2.y then 0
  else if unionArea r1 r2 = 0 then 0
  else (interArea r1 r2 : ℚ) / (unionArea r1 r2 : ℚ)

/-- Two rectangles are disjoint when they are separated along one axis
(their interiors share no point). -/
def DisjointRects (r1 r2 : Rect) : Prop :=
  r1.x + r1.w ≤ r2.x ∨ r2.x + r2.w ≤ r1.x ∨
  r1.y + r1.h ≤ r2.y ∨ r2.y + r2.h ≤ r1.y

theorem iou_self (r : Rect) (hw : 0 < r.w) (hh : 0 < r.h) :
    calculate_iou r r = 1 := by
  have hsep : ¬(min (r.x + r.w) (r.x + r.w) < max r.x r.x ∨
      min (r.y + r.h) (r.y + r.h) < max r.y r.y) := by
    simp only [min_self, max_self]
    omega
  have hinter : interArea r r = r.w * r.h := by
    unfold interArea
    rw [if_neg hsep]
    simp only [min_self, max_self]
    ring
  have hunion : unionArea r r = r.w * r.h := by
    unfold unionArea
    rw [hinter]
    ring
  have hne : r.w * r.h ≠ 0 := by
    have := mul_pos hw hh
    omega
  unfold calculate_iou
  rw [if_neg hsep, hunion, if_neg hne, hinter]
  exact div_self (by exact_mod_cast hne)

theorem interArea_disjoint (r1 r2 : Rect) (h : DisjointRects r1 r2) :
    interArea r1 r2 = 0 := by
  unfold interArea
  have hxm1 : min (r1.x + r1.w) (r2.x + r2.w) ≤ r1.x + r1.w := min_le_left _ _
  have hxm2 : min (r1.x + r1.w) (r2.x + r2.w) ≤ r2.x + r2.w := min_le_right _ _
  have hxl : r1.x ≤ max r1.x r2.x := le_max_left _ _
  have hxr : r2.x ≤ max r1.x r2.x := le_max_right _ _
  have hym1 : min (r1.y + r1.h) (r2.y + r2.h) ≤ r1.y + r1.h := min_le_left _ _
  have hym2 : min (r1.y + r1.h) (r2.y + r2.h) ≤ r2.y + r2.h := min_le_right _ _
  have hyl : r1.y ≤ max r1.y r2.y := le_max_left _ _
  have hyr : r2.y ≤ max r1.y r2.y := le_max_right _ _
  split_ifs with h1
  · rfl
  · push_neg at h1
    rcases h with h | h | h | h
    · have hx : min (r1.x + r1.w) (r2.x + r2.w) - max r1.x r2.x = 0 := by omega
      rw [hx, zero_mul]
    · have hx : min (r1.x + r1.w) (r2.x + r2.w) - max r1.x r2.x = 0 := by omega
      rw [hx, zero_mul]
    · have hy : min (r1.y + r1.h) (r2.y + r2.h) - max r1.y r2.y = 0 := by omega
      rw [hy, mul_zero]
    · have hy : min (r1.y + r1.h) (r2.y + r2.h) - max r1.y r2.y = 0 := by omega
      rw [hy, mul_zero]

theorem iou_disjoint (r1 r2 : Rect) (h : DisjointRects r1 r2) :
    calculate_iou r1 r2 = 0 := by
  have hinter := interArea_disjoint r1 r2 h
  unfold calculate_iou
  split_ifs with h1 h2
  · rfl
  · rfl
  · rw [hinter]
    simp

theorem interArea_comm (r1 r2 : Rect) : interArea r1 r2 = interArea r2 r1 := by
  unfold interArea
  rw [max_comm r2.x r1.x, max_comm r2.y r1.y, min_comm (r2.x + r2.w) (r1.x + r1.w),
      min_comm (r2.y + r2.h) (r1.y + r1.h)]

theorem unionArea_comm (r1 r2 : Rect) : unionArea r1 r2 = unionArea r2 r1 := by
  unfold unionArea
  rw [interArea_comm r2 r1]
  ring

theorem iou_comm (r1 r2 : Rect) :
    calculate_iou r1 r2 = calculate_iou r2 r1 := by
  unfold calculate_iou
  rw [interArea_comm r2 r1, unionArea_comm r2 r1, max_comm r2.x r1.x,
      max_comm r2.y r1.y, min_comm (r2.x + r2.w) (r1.x + r1.w),
      min_comm (r2.y + r2.h) (r1.y + r1.h)]

theorem iou_union_area_zero (r1 r2 : Rect) (h : unionArea r1 r2 = 0) :
    calculate_iou r1 r2 = 0 := by
  unfold calculate_iou
  split_ifs with h1
  · rfl
  · rfl

/-! ### Elements and the hybrid merge (`HybridScanner._merge_elements`, `scan`) -/

/-- A detected interactive element, as the dictionaries produced by
`UIScanner._extract_element_info` and consumed by the merge engine. -/
structure Element where
  id : Int
  source : String
  name : String
  ctype : String
  rect : Rect
  center : Int × Int
  automationId : String
  className : String
deriving Repr, DecidableEq

/-- The element's payload with the (reassigned) id removed. -/
def Element.core (e : Element) : Element :=
  { e with id := 0 }

/-- The `is_duplicate` loop of `_merge_elements`, negated: a vision element
survives when no API element has IoU at or above the threshold with it. -/
def survives (iouThreshold : ℚ) (api_elements : List Element) (v : Element) : Bool :=
  !api_elements.any
    (fun api_elem => decide (iouThreshold ≤ calculate_iou v.rect api_elem.rect))

/-- `HybridScanner._merge_elements`: keep all API elements, then append each
vision element whose IoU with every API element is below the threshold. -/
def merge_elements (iouThreshold : ℚ) (api_elements vision_elements : List Element) :
    List Element :=
  vision_elements.foldl
    (fun merged vision_elem =>
      if survives iouThreshold api_elements vision_elem then merged ++ [vision_elem]
      else merged)
    api_elements

/-- The id-reassignment loop of `HybridScanner.scan`:
`for idx, elem in enumerate(merged, start=1): elem['id'] = idx`. -/
def assignIds : Int → List Element → List Element
  | _, [] => []
  | n, e :: es => { e with id := n } :: assignIds (n + 1) es

/-- `HybridScanner.scan`, merge and id-reassignment part: merge the two
sources, then reassign ids `1..N` over the concatenation. -/
def hybrid_scan_merge (iouThreshold : ℚ) (api_elements vision_elements : List Element) :
    List Element :=
  assignIds 1 (merge_elements iouThreshold api_elements vision_elements)

theorem merge_elements_eq_filter (t : ℚ) (api vision : List Element) :
    merge_elements t api vision = api ++ vision.filter (survives t api) := by
  unfold merge_elements
  suffices h : ∀ (vs : List Element) (acc : List Element),
      vs.foldl
        (fun merged v =>
          if survives t api v then merged ++ [v] else merged) acc
        = acc ++ vs.filter (survives t api) by
    simpa using h vision api
  intro vs
  induction vs with
  | nil => intro acc; simp
  | cons v vs ih =>
    intro acc
    by_cases hv : survives t api v = true
    · simp [List.foldl_cons, hv, ih, List.filter_cons]
    · simp [List.foldl_cons, hv, ih, List.filter_cons]

theorem assignIds_map_core (L : List Element) :
    ∀ n : Int, (assignIds n L).map Element.core = L.map Element.core := by
  induction L with
  | nil => intro n; rfl
  | cons e es ih =>
    intro n
    simp [assignIds, Element.core, ih]

/-- The consecutive integer ids `n, n+1, ..., n+k-1`. -/
def idRange (n : Int) : Nat → List Int
  | 0 => []
  | k + 1 => n :: idRange (n + 1) k

theorem assignIds_map_id (L : List Element) :
    ∀ n : Int, (assignIds n L).map Element.id = idRange n L.length := by
  induction L with
  | nil => intro n; rfl
  | cons e es ih =>
    intro n
    simp [assignIds, idRange, ih]

theorem survives_iff (t : ℚ) (api : List Element) (v : Element) :
    survives t api v = true ↔ ∀ a ∈ api, calculate_iou v.rect a.rect < t := by
  unfold survives
  simp [not_le]

/-- C1: the hybrid merge keeps every API element unconditionally and in
order; a vision element appears in the result exactly when its IoU with
every API element is below the threshold; ids are reassigned `1..N` over
the api-first concatenation; and the spec's concrete two-element scenario
comes out as stated. -/
theorem C1_hybrid_merge_spec :
    (∀ (t : ℚ) (api vision : List Element),
        (hybrid_scan_merge t api vision).map Element.core
          = (api ++ vision.filter (survives t api)).map Element.core)
    ∧ (∀ (t : ℚ) (api vision : List Element),
        (hybrid_scan_merge t api vision).map Element.id
          = idRange 1 (api.length + (vision.filter (survives t api)).length))
    ∧ (∀ (t : ℚ) (api : List Element) (v : Element),
        survives t api v = true ↔ ∀ a ∈ api, calculate_iou v.rect a.rect < t)
    ∧ hybrid_scan_merge (1/2)
        [⟨1, "api", "", "Button", ⟨10, 10, 40, 20⟩, (30, 20), "", ""⟩]
        [⟨0, "vision", "", "button", ⟨12, 12, 38, 18⟩, (31, 21), "", ""⟩,
         ⟨0, "vision", "", "button", ⟨500, 500, 20, 20⟩, (510, 510), "", ""⟩]
      = [⟨1, "api", "", "Button", ⟨10, 10, 40, 20⟩, (30, 20), "", ""⟩,
         ⟨2, "vision", "", "button", ⟨500, 500, 20, 20⟩, (510, 510), "", ""⟩] := by
  refine ⟨?_, ?_, survives_iff, ?_⟩
  · intro t api vision
    unfold hybrid_scan_merge
    rw [merge_elements_eq_filter, assignIds_map_core]
  · intro t api vision
    unfold hybrid_scan_merge
    rw [merge_elements_eq_filter, assignIds_map_id]
    simp
  · have hiou1 : calculate_iou ⟨12, 12, 38, 18⟩ ⟨10, 10, 40, 20⟩ = 171/200 := by
      norm_num [calculate_iou, interArea, unionArea]
    have hiou2 : calculate_iou ⟨500, 500, 20, 20⟩ ⟨10, 10, 40, 20⟩ = 0 := by
      norm_num [calculate_iou, interArea, unionArea]
    have hs1 : survives (1/2)
        [⟨1, "api", "", "Button", ⟨10, 10, 40, 20⟩, (30, 20), "", ""⟩]
        ⟨0, "vision", "", "button", ⟨12, 12, 38, 18⟩, (31, 21), "", ""⟩ = false := by
      simp [survives, hiou1]
      norm_num
    have hs2 : survives (1/2)
        [⟨1, "api", "", "Button", ⟨10, 10, 40, 20⟩, (30, 20), "", ""⟩]
        ⟨0, "vision", "", "button", ⟨500, 500, 20, 20⟩, (510, 510), "", ""⟩ = true := by
      simp [survives, hiou2]
    unfold hybrid_scan_merge
    rw [merge_elements_eq_filter]
    rw [List.filter_cons, List.filter_cons, List.filter_nil, hs1, hs2]
    rfl

/-- C2: IoU is `1` on any rectangle with positive width and height paired
with itself, `0` on disjoint rectangles, symmetric, and `0` whenever the
computed union area is `0`. -/
theorem C2_iou_algebra :
    (∀ r : Rect, 0 < r.w → 0 < r.h → calculate_iou r r = 1)
    ∧ (∀ r1 r2 : Rect, DisjointRects r1 r2 → calculate_iou r1 r2 = 0)
    ∧ (∀ r1 r2 : Rect, calculate_iou r1 r2 = calculate_iou r2 r1)
    ∧ (∀ r1 r2 : Rect, unionArea r1 r2 = 0 → calculate_iou r1 r2 = 0) :=
  ⟨iou_self, iou_disjoint, iou_comm, iou_union_area_zero⟩

/-! ### Stuck-state detector (`AutonomousAgent._compare_screenshots`) -/

/-- A decoded RGB frame: the pixel grid dimensions and the flattened
per-channel byte values, as the numpy array in `_compare_screenshots`. -/
structure Frame where
  width : Nat
  height : Nat
  data : List Nat
deriving Repr, DecidableEq

/-- `np.sum(np.abs(current - previous))` over the flattened values. -/
def sumAbsDiff : List Nat → List Nat → Nat
  | [], _ => 0
  | _, [] => 0
  | a :: as', b :: bs' => ((a : Int) - (b : Int)).natAbs + sumAbsDiff as' bs'

/-- `(np.sum(diff) / diff.size) / 255.0 * 100`; `none` when the two pixel
arrays have mismatched shapes (numpy raises, which the caller catches). -/
def diffPercentage (cur prev : Frame) : Option ℚ :=
  if cur.data.length = prev.data.length then
    some (((sumAbsDiff cur.data prev.data : ℚ) / (cur.data.length : ℚ)) / 255 * 100)
  else none

/-- `AutonomousAgent._compare_screenshots`: `true` when there is no
previous frame; otherwise the previous frame is resized to the current
frame's dimensions when they differ and the mean absolute per-channel
difference percentage is compared against the fixed 2.0% threshold.
`none` stands for a screenshot path whose image cannot be loaded; every
internal failure yields `true`. -/
def compare_screenshots (resize : Frame → Nat → Nat → Frame)
    (current previous : Option Frame) : Bool :=
  match previous with
  | none => true
  | some prev =>
    match current with
    | none => true
    | some cur =>
      match diffPercentage cur
          (if (prev.width, prev.height) ≠ (cur.width, cur.height) then
            resize prev cur.width cur.height else prev) with
      | none => true
      | some p => decide (2 < p)

theorem sumAbsDiff_self (l : List Nat) : sumAbsDiff l l = 0 := by
  induction l with
  | nil => rfl
  | cons a as' ih => simp [sumAbsDiff, ih]

/-- C3: no previous frame (or an unreadable frame) yields `true`; with
both frames decoded the result is `true` iff the mean absolute difference
percentage computed on the (resized) previous frame exceeds 2.0%; a shape
mismatch (internal failure) yields `true`; identical frames yield
`false`. -/
theorem C3_compare_screenshots_spec :
    (∀ (resize : Frame → Nat → Nat → Frame) (current : Option Frame),
        compare_screenshots resize current none = true)
    ∧ (∀ (resize : Frame → Nat → Nat → Frame) (prev : Frame),
        compare_screenshots resize none (some prev) = true)
    ∧ (∀ (resize : Frame → Nat → Nat → Frame) (cur prev : Frame) (q : ℚ),
        diffPercentage cur
            (if (prev.width, prev.height) ≠ (cur.width, cur.height) then
              resize prev cur.width cur.height else prev) = some q →
        (compare_screenshots resize (some cur) (some prev) = true ↔ 2 < q))
    ∧ (∀ (resize : Frame → Nat → Nat → Frame) (cur prev : Frame),
        diffPercentage cur
            (if (prev.width, prev.height) ≠ (cur.width, cur.height) then
              resize prev cur.width cur.height else prev) = none →
        compare_screenshots resize (some cur) (some prev) = true)
    ∧ (∀ (resize : Frame → Nat → Nat → Frame) (f : Frame),
        compare_screenshots resize (some f) (some f) = false) := by
  refine ⟨fun resize current => by cases current <;> rfl, fun resize prev => rfl,
    ?_, ?_, ?_⟩
  · intro resize cur prev q hq
    simp only [compare_screenshots]
    rw [hq]
    simp
  · intro resize cur prev hq
    simp only [compare_screenshots]
    rw [hq]
  · intro resize f
    have hd : diffPercentage f f = some 0 := by
      unfold diffPercentage
      rw [if_pos rfl, sumAbsDiff_self]
      norm_num
    simp only [compare_screenshots, ne_eq, not_true_eq_false, if_false, ite_self]
    rw [hd]
    norm_num

/-- Witness for C3 at concrete frames: a fully-changed pair of 1x1 frames
compares as changed, and a shape-mismatched pair defaults to `true`. -/
theorem C3_compare_screenshots_witness :
    compare_screenshots (fun f _ _ => f) (some ⟨1, 1, [0, 0, 0]⟩)
        (some ⟨1, 1, [255, 255, 255]⟩) = true
    ∧ compare_screenshots (fun f _ _ => f) (some ⟨1, 1, [0, 0, 0]⟩)
        (some ⟨1, 1, [0]⟩) = true := by
  constructor
  · exact (C3_compare_screenshots_spec.2.2.1 (fun f _ _ => f)
      ⟨1, 1, [0, 0, 0]⟩ ⟨1, 1, [255, 255, 255]⟩ 100
      (by norm_num [diffPercentage, sumAbsDiff])).mpr (by norm_num)
  · exact C3_compare_screenshots_spec.2.2.2.1 (fun f _ _ => f)
      ⟨1, 1, [0, 0, 0]⟩ ⟨1, 1, [0]⟩ (by norm_num [diffPercentage])

/-! ### Bounded execution loop (`AutonomousAgent.run_task`) -/

/-- `MAX_ITERATIONS = 15` in `main.py`. -/
def MAX_ITERATIONS : Nat := 15

/-- How one pass of the `while` loop in `run_task` ends, over an abstract
agent state `S`: continue normally, set `task_complete`, `break` without
completion (operator declined to continue), or return `False` out of the
loop on an unrecoverable error. -/
inductive PassOutcome (S : Type) where
  | cont (s : S)
  | complete (s : S)
  | stop (s : S)
  | abort

/-- The `while iteration < MAX_ITERATIONS and not task_complete` loop of
`run_task`; returns the final iteration counter, `task_complete`, and
whether the loop was left by an error return. -/
def runTaskLoop {S : Type} (step : Nat → S → PassOutcome S) (iteration : Nat) (s : S) :
    Nat × Bool × Bool :=
  if iteration < MAX_ITERATIONS then
    match step (iteration + 1) s with
    | .cont s' => runTaskLoop step (iteration + 1) s'
    | .complete _ => (iteration + 1, true, false)
    | .stop _ => (iteration + 1, false, false)
    | .abort => (iteration + 1, false, true)
  else (iteration, false, false)
termination_by MAX_ITERATIONS - iteration

/-- The post-loop reporting of `run_task`: completed tasks report `True`;
reaching `MAX_ITERATIONS` without completion reports exhaustion and
`False`; error returns and early `break`s report `False`. -/
inductive RunOutcome where
  | completed
  | exhausted
  | failed
deriving Repr, DecidableEq

/-- `run_task` from iteration `0`: run the loop, then classify. -/
def run_task_result {S : Type} (step : Nat → S → PassOutcome S) (s : S) :
    RunOutcome × Bool :=
  if (runTaskLoop step 0 s).2.2 then (.failed, false)
  else if (runTaskLoop step 0 s).2.1 then (.completed, true)
  else if MAX_ITERATIONS ≤ (runTaskLoop step 0 s).1 then (.exhausted, false)
  else (.failed, false)

theorem runTaskLoop_iter_le {S : Type} (step : Nat → S → PassOutcome S) :
    ∀ (k iteration : Nat) (s : S), MAX_ITERATIONS - iteration ≤ k →
      iteration ≤ MAX_ITERATIONS →
      (runTaskLoop step iteration s).1 ≤ MAX_ITERATIONS := by
  intro k
  induction k with
  | zero =>
    intro iteration s hk hle
    rw [runTaskLoop]
    have h : ¬ iteration < MAX_ITERATIONS := by omega
    rw [if_neg h]
    exact hle
  | succ k ih =>
    intro iteration s hk hle
    rw [runTaskLoop]
    by_cases h : iteration < MAX_ITERATIONS
    · rw [if_pos h]
      cases step (iteration + 1) s with
      | cont s' => exact ih (iteration + 1) s' (by omega) (by omega)
      | complete s' => simpa using by omega
      | stop s' => simpa using by omega
      | abort => simpa using by omega
    · rw [if_neg h]
      exact hle

theorem runTaskLoop_all_cont {S : Type} (step : Nat → S → PassOutcome S)
    (hstep : ∀ i t, ∃ t', step i t = .cont t') :
    ∀ (k iteration : Nat) (s : S), MAX_ITERATIONS - iteration ≤ k →
      iteration ≤ MAX_ITERATIONS →
      runTaskLoop step iteration s = (MAX_ITERATIONS, false, false) := by
  intro k
  induction k with
  | zero =>
    intro iteration s hk hle
    rw [runTaskLoop]
    have h : ¬ iteration < MAX_ITERATIONS := by omega
    rw [if_neg h]
    have : iteration = MAX_ITERATIONS := by omega
    rw [this]
  | succ k ih =>
    intro iteration s hk hle
    rw [runTaskLoop]
    by_cases h : iteration < MAX_ITERATIONS
    · rw [if_pos h]
      obtain ⟨s', hs'⟩ := hstep (iteration + 1) s
      rw [hs']
      exact ih (iteration + 1) s' (by omega) (by omega)
    · rw [if_neg h]
      have : iteration = MAX_ITERATIONS := by omega
      rw [this]

/-- C5: the `run_task` loop runs at most `MAX_ITERATIONS = 15` passes, and
a run in which no pass ever signals completion, a break, or an error
reaches `MAX_ITERATIONS` and ends in the exhausted outcome, reported as
not complete. -/
theorem C5_iteration_bound :
    (∀ (S : Type) (step : Nat → S → PassOutcome S) (s : S),
        (runTaskLoop step 0 s).1 ≤ MAX_ITERATIONS)
    ∧ (∀ (S : Type) (step : Nat → S → PassOutcome S) (s : S),
        (runTaskLoop step 0 s).2.1 = false → (runTaskLoop step 0 s).2.2 = false →
        MAX_ITERATIONS ≤ (runTaskLoop step 0 s).1 →
        run_task_result step s = (.exhausted, false))
    ∧ (∀ (S : Type) (step : Nat → S → PassOutcome S) (s : S),
        (∀ i t, ∃ t', step i t = .cont t') →
        run_task_result step s = (.exhausted, false)) := by
  refine ⟨?_, ?_, ?_⟩
  · intro S step s
    exact runTaskLoop_iter_le step MAX_ITERATIONS 0 s (by omega) (by omega)
  · intro S step s htc hab hit
    unfold run_task_result
    rw [hab, htc, if_neg (by simp), if_neg (by simp), if_pos hit]
  · intro S step s hstep
    unfold run_task_result
    rw [runTaskLoop_all_cont step hstep MAX_ITERATIONS 0 s (by omega) (by omega)]
    rfl

/-- Witness for C5: a step that always continues exhausts the budget. -/
theorem C5_iteration_bound_witness :
    run_task_result (fun _ (t : Unit) => PassOutcome.cont t) ()
      = (RunOutcome.exhausted, false) :=
  C5_iteration_bound.2.2 Unit (fun _ t => PassOutcome.cont t) ()
    (fun _ t => ⟨t, rfl⟩)

/-! ### Planner (`GeminiAgent.generate_plan`) -/

/-- Python `line.strip()` (ASCII whitespace). -/
def pyStrip (s : String) : String := s.trim

/-- The numbered-item test of `generate_plan`: the line starts with
`"{i}."`, `"{i})"` or `"Step {i}"` for some `i` in `range(1, 20)`. -/
def isNumberedLine (line : String) : Bool :=
  (List.range' 1 19).any (fun i =>
    line.startsWith (toString i ++ ".") || line.startsWith (toString i ++ ")") ||
    line.startsWith ("Step " ++ toString i))

/-- The suffix after the first occurrence of the pattern, when present. -/
def afterFirstAux (pat : List Char) : List Char → Option (List Char)
  | [] => none
  | c :: cs =>
    if startsList pat (c :: cs) then some ((c :: cs).drop pat.length)
    else afterFirstAux pat cs

/-- Python `s.split(pat, 1)[1]` guarded by `pat in s`. -/
def afterFirst (s pat : String) : String :=
  match afterFirstAux pat.data s.data with
  | some r => String.mk r
  | none => s

/-- The `for prefix in ["Step ", "step "]` cleanup loop of `generate_plan`. -/
def stripStepPre (line : String) : String :=
  ["Step ", "step "].foldl
    (fun clean_line pre =>
      if strContains clean_line pre then afterFirst clean_line pre else clean_line)
    line

/-- The `for i in range(20)` leading-number cleanup loop of
`generate_plan`. -/
def stripNumPre (line : String) : String :=
  (List.range 20).foldl
    (fun clean_line i =>
      [toString i ++ ". ", toString i ++ ") ", toString i ++ ": "].foldl
        (fun cl sep => if cl.startsWith sep then cl.drop sep.length else cl)
        clean_line)
    line

/-- `GeminiAgent.generate_plan`: parse the model's reply into numbered
sub-goals; fall back to `[user_request]` when parsing yields nothing or
the call raises. `llmText` is the outcome of the model call. -/
def generate_plan (user_request : String) (llmText : Except Unit String) :
    List String :=
  match llmText with
  | .error _ => [user_request]
  | .ok plan_text =>
    let lines := ((plan_text.split (fun c => c = '\n')).map pyStrip).filter
      (fun l => l ≠ "")
    let plan := (lines.filter isNumberedLine).map
      (fun l => stripNumPre (stripStepPre l))
    if plan = [] then [user_request] else plan

theorem generate_plan_ne_nil (user_request : String) (llmText : Except Unit String) :
    generate_plan user_request llmText ≠ [] := by
  unfold generate_plan
  match llmText with
  | .error _ => simp
  | .ok t =>
    simp only
    split_ifs with h
    · simp
    · exact h

/-! ### Hierarchical plan state (`AutonomousAgent.run_task`, response handling) -/

/-- `max_subgoal_attempts = 5` in `main.py`. -/
def SUBGOAL_MAX : Nat := 5

/-- The plan-tracking fields of `AutonomousAgent` together with the local
`task_complete` flag of `run_task`. -/
structure PlanState where
  plan : Option (List String)
  currentIndex : Nat
  attempts : Nat
  stuckCount : Nat
  taskComplete : Bool
deriving Repr, DecidableEq

/-- The sub-goal signal handling of one `run_task` pass over the oracle's
text response (`main.py`, the `if text_response:` block): advance on the
sub-goal-complete marker, re-plan on the impossible marker, otherwise
count an attempt and force re-plan or advance at the attempt cap.
`replan` is the outcome of the `generate_plan` call made at the
re-planning points (`.error` models the call raising). -/
def processResponseText (replan : Except Unit (List String))
    (text : String) (s : PlanState) : PlanState :=
  if text = "" then s
  else
    match s.plan with
    | none => s
    | some p =>
      if s.currentIndex < p.length then
        if strContains (strLower text) "sub-goal complete" ||
            strContains (strLower text) "subgoal complete" then
          { s with currentIndex := s.currentIndex + 1, attempts := 0, stuckCount := 0,
                   taskComplete := if p.length ≤ s.currentIndex + 1 then true
                     else s.taskComplete }
        else if strContains (strLower text) "sub-goal impossible" ||
            strContains (strLower text) "subgoal impossible" then
          match replan with
          | .ok new_plan =>
            if new_plan ≠ [] then
              { s with plan := some new_plan, currentIndex := 0, attempts := 0,
                       stuckCount := 0 }
            else s
          | .error _ => s
        else
          if SUBGOAL_MAX ≤ s.attempts + 1 then
            match replan with
            | .ok new_plan =>
              if new_plan ≠ [] then
                { s with plan := some new_plan, currentIndex := 0, attempts := 0 }
              else { s with attempts := s.attempts + 1 }
            | .error _ =>
              { s with currentIndex := s.currentIndex + 1, attempts := 0 }
          else { s with attempts := s.attempts + 1 }
      else s

theorem processResponseText_no_marker (replan : Except Unit (List String))
    (text : String) (p : List String) (idx att stuck : Nat) (tc : Bool)
    (hi : idx < p.length) (ht : text ≠ "")
    (h1 : strContains (strLower text) "sub-goal complete" = false)
    (h2 : strContains (strLower text) "subgoal complete" = false)
    (h3 : strContains (strLower text) "sub-goal impossible" = false)
    (h4 : strContains (strLower text) "subgoal impossible" = false) :
    processResponseText replan text ⟨some p, idx, att, stuck, tc⟩ =
      if SUBGOAL_MAX ≤ att + 1 then
        match replan with
        | .ok new_plan =>
          if new_plan ≠ [] then ⟨some new_plan, 0, 0, stuck, tc⟩
          else ⟨some p, idx, att + 1, stuck, tc⟩
        | .error _ => ⟨some p, idx + 1, 0, stuck, tc⟩
      else ⟨some p, idx, att + 1, stuck, tc⟩ := by
  unfold processResponseText
  rw [if_neg ht]
  dsimp only
  rw [if_pos hi, h1, h2, h3, h4]
  rfl

theorem processResponseText_marker (replan : Except Unit (List String))
    (text : String) (p : List String) (idx att stuck : Nat) (tc : Bool)
    (hi : idx < p.length) (ht : text ≠ "")
    (hm : (strContains (strLower text) "sub-goal complete" ||
        strContains (strLower text) "subgoal complete") = true) :
    processResponseText replan text ⟨some p, idx, att, stuck, tc⟩ =
      ⟨some p, idx + 1, 0, 0, if p.length ≤ idx + 1 then true else tc⟩ := by
  unfold processResponseText
  rw [if_neg ht]
  dsimp only
  rw [if_pos hi, if_pos hm]

/-- C9: with an active plan, the explicit sub-goal-complete marker in the
oracle text advances `currentIndex` by one and resets both the attempts
counter and the stuck counter; when the incremented index equals the plan
length the task is marked complete; and the spec's two-sub-goal scenario
comes out exactly as stated. -/
theorem C9_subgoal_complete_marker :
    (∀ (replan : Except Unit (List String)) (text : String) (s : PlanState)
        (p : List String),
        s.plan = some p → s.currentIndex < p.length →
        (strContains (strLower text) "sub-goal complete" = true ∨
          strContains (strLower text) "subgoal complete" = true) →
        (processResponseText replan text s).currentIndex = s.currentIndex + 1
        ∧ (processResponseText replan text s).attempts = 0
        ∧ (processResponseText replan text s).stuckCount = 0
        ∧ (s.currentIndex + 1 = p.length →
            (processResponseText replan text s).taskComplete = true))
    ∧ processResponseText (Except.ok ["noop"]) "Progress made. SUB-GOAL COMPLETE."
        ⟨some ["open app", "type text"], 0, 2, 3, false⟩
      = ⟨some ["open app", "type text"], 1, 0, 0, false⟩ := by
  constructor
  · intro replan text s p hp hi hm
    have ht : text ≠ "" := by
      intro h
      subst h
      rcases hm with hm | hm
      · exact absurd hm (by decide)
      · exact absurd hm (by decide)
    have hmor : (strContains (strLower text) "sub-goal complete" ||
        strContains (strLower text) "subgoal complete") = true := by
      rcases hm with hm | hm <;> simp [hm]
    obtain ⟨sp, idx, att, stuck, tc⟩ := s
    simp only at hp hi
    subst hp
    rw [processResponseText_marker replan text p idx att stuck tc hi ht hmor]
    refine ⟨rfl, rfl, rfl, ?_⟩
    intro hlen
    simp only at hlen ⊢
    rw [if_pos (by omega)]
  · decide

/-- Witness for C9: the marker at index 1 of a two-step plan finishes the
plan and marks the task complete. -/
theorem C9_subgoal_complete_marker_witness :
    (processResponseText (Except.ok ["noop"]) "ok: sub-goal complete"
        ⟨some ["a", "b"], 1, 4, 2, false⟩).currentIndex = 2
    ∧ (processResponseText (Except.ok ["noop"]) "ok: sub-goal complete"
        ⟨some ["a", "b"], 1, 4, 2, false⟩).attempts = 0
    ∧ (processResponseText (Except.ok ["noop"]) "ok: sub-goal complete"
        ⟨some ["a", "b"], 1, 4, 2, false⟩).stuckCount = 0
    ∧ (processResponseText (Except.ok ["noop"]) "ok: sub-goal complete"
        ⟨some ["a", "b"], 1, 4, 2, false⟩).taskComplete = true := by
  have h := C9_subgoal_complete_marker.1 (Except.ok ["noop"])
    "ok: sub-goal complete" ⟨some ["a", "b"], 1, 4, 2, false⟩ ["a", "b"]
    rfl (by decide) (Or.inl (by decide))
  exact ⟨h.1, h.2.1, h.2.2.1, h.2.2.2 (by decide)⟩

/-- C8 counterexample: with an active plan, a pass whose oracle text is
empty carries neither the advance marker nor the impossible marker, yet
`attemptsOnCurrent` is left at 0 instead of being incremented to 1 —
`run_task` only inspects markers and counts attempts inside its
`if text_response:` block. -/
theorem C8_attempts_counterexample :
    strContains (strLower "") "sub-goal complete" = false
    ∧ strContains (strLower "") "subgoal complete" = false
    ∧ strContains (strLower "") "sub-goal impossible" = false
    ∧ strContains (strLower "") "subgoal impossible" = false
    ∧ (⟨some ["open app", "type text"], 0, 0, 0, false⟩ : PlanState).currentIndex
        < 2
    ∧ (processResponseText (Except.ok ["next step"]) ""
        ⟨some ["open app", "type text"], 0, 0, 0, false⟩).attempts = 0
    ∧ ¬((processResponseText (Except.ok ["next step"]) ""
        ⟨some ["open app", "type text"], 0, 0, 0, false⟩).attempts
          = (⟨some ["open app", "type text"], 0, 0, 0, false⟩ : PlanState).attempts
            + 1) := by
  refine ⟨rfl, rfl, rfl, rfl, by decide, rfl, by decide⟩

/-- C8 (amended): with an active plan, `attemptsOnCurrent` increments on
every pass whose oracle text is nonempty and carries neither marker;
reaching `maxSubgoalAttempts = 5` triggers a re-plan, whose failure by
exception forces an unconditional advance to the next sub-goal and whose
success installs the new plan with the counter reset; since
`generate_plan` never returns an empty plan, the counter never exceeds
`maxSubgoalAttempts`. -/
theorem C8_subgoal_attempts_amended :
    (∀ (replan : Except Unit (List String)) (text : String)
        (p : List String) (idx att stuck : Nat) (tc : Bool),
        idx < p.length → text ≠ "" →
        strContains (strLower text) "sub-goal complete" = false →
        strContains (strLower text) "subgoal complete" = false →
        strContains (strLower text) "sub-goal impossible" = false →
        strContains (strLower text) "subgoal impossible" = false →
        att + 1 < SUBGOAL_MAX →
        (processResponseText replan text ⟨some p, idx, att, stuck, tc⟩).attempts
          = att + 1)
    ∧ (∀ (text : String) (p : List String) (idx att stuck : Nat) (tc : Bool),
        idx < p.length → text ≠ "" →
        strContains (strLower text) "sub-goal complete" = false →
        strContains (strLower text) "subgoal complete" = false →
        strContains (strLower text) "sub-goal impossible" = false →
        strContains (strLower text) "subgoal impossible" = false →
        SUBGOAL_MAX ≤ att + 1 →
        processResponseText (Except.error ()) text ⟨some p, idx, att, stuck, tc⟩
          = ⟨some p, idx + 1, 0, stuck, tc⟩)
    ∧ (∀ (text : String) (p new_plan : List String) (idx att stuck : Nat)
        (tc : Bool),
        idx < p.length → text ≠ "" →
        strContains (strLower text) "sub-goal complete" = false →
        strContains (strLower text) "subgoal complete" = false →
        strContains (strLower text) "sub-goal impossible" = false →
        strContains (strLower text) "subgoal impossible" = false →
        SUBGOAL_MAX ≤ att + 1 → new_plan ≠ [] →
        processResponseText (Except.ok new_plan) text ⟨some p, idx, att, stuck, tc⟩
          = ⟨some new_plan, 0, 0, stuck, tc⟩)
    ∧ (∀ (replan : Except Unit (List String)) (text : String) (s : PlanState),
        (∀ l, replan = Except.ok l → l ≠ []) →
        s.attempts + 1 ≤ SUBGOAL_MAX →
        (processResponseText replan text s).attempts + 1 ≤ SUBGOAL_MAX)
    ∧ (∀ (user_request : String) (llmText : Except Unit String),
        generate_plan user_request llmText ≠ []) := by
  refine ⟨?_, ?_, ?_, ?_, generate_plan_ne_nil⟩
  · intro replan text p idx att stuck tc hi ht h1 h2 h3 h4 hcap
    rw [processResponseText_no_marker replan text p idx att stuck tc hi ht h1 h2 h3 h4]
    rw [if_neg (by omega)]
  · intro text p idx att stuck tc hi ht h1 h2 h3 h4 hcap
    rw [processResponseText_no_marker _ text p idx att stuck tc hi ht h1 h2 h3 h4]
    rw [if_pos hcap]
  · intro text p new_plan idx att stuck tc hi ht h1 h2 h3 h4 hcap hnp
    rw [processResponseText_no_marker _ text p idx att stuck tc hi ht h1 h2 h3 h4]
    rw [if_pos hcap]
    simp only [ne_eq, hnp, not_false_eq_true, if_pos]
  · intro replan text s hok hbound
    have h5 : SUBGOAL_MAX = 5 := rfl
    by_cases ht : text = ""
    · have : processResponseText replan text s = s := by
        unfold processResponseText
        rw [if_pos ht]
      rw [this]
      exact hbound
    · obtain ⟨sp, idx, att, stuck, tc⟩ := s
      simp only at hbound ⊢
      rcases sp with _ | p
      · have : processResponseText replan text ⟨none, idx, att, stuck, tc⟩
            = ⟨none, idx, att, stuck, tc⟩ := by
          unfold processResponseText
          rw [if_neg ht]
        rw [this]
        exact hbound
      · by_cases hi : idx < p.length
        · by_cases hm : (strContains (strLower text) "sub-goal complete" ||
              strContains (strLower text) "subgoal complete") = true
          · rw [processResponseText_marker replan text p idx att stuck tc hi ht hm]
            show 0 + 1 ≤ SUBGOAL_MAX
            omega
          · by_cases him : (strContains (strLower text) "sub-goal impossible" ||
                strContains (strLower text) "subgoal impossible") = true
            · rcases replan with e | l
              · have hred : processResponseText (Except.error e) text
                    ⟨some p, idx, att, stuck, tc⟩ = ⟨some p, idx, att, stuck, tc⟩ := by
                  unfold processResponseText
                  rw [if_neg ht]
                  dsimp only
                  rw [if_pos hi, if_neg hm, if_pos him]
                rw [hred]
                exact hbound
              · by_cases hl : l = []
                · have hred : processResponseText (Except.ok l) text
                      ⟨some p, idx, att, stuck, tc⟩
                        = ⟨some p, idx, att, stuck, tc⟩ := by
                    unfold processResponseText
                    rw [if_neg ht]
                    dsimp only
                    rw [if_pos hi, if_neg hm, if_pos him]
                    rw [hl]
                    rfl
                  rw [hred]
                  exact hbound
                · have hred : processResponseText (Except.ok l) text
                      ⟨some p, idx, att, stuck, tc⟩ = ⟨some l, 0, 0, 0, tc⟩ := by
                    unfold processResponseText
                    rw [if_neg ht]
                    dsimp only
                    rw [if_pos hi, if_neg hm, if_pos him]
                    rw [if_pos hl]
                  rw [hred]
                  show 0 + 1 ≤ SUBGOAL_MAX
                  omega
            · simp only [Bool.or_eq_true, not_or, Bool.not_eq_true] at hm him
              rw [processResponseText_no_marker replan text p idx att stuck tc hi ht
                hm.1 hm.2 him.1 him.2]
              by_cases hcap : SUBGOAL_MAX ≤ att + 1
              · rw [if_pos hcap]
                rcases replan with e | l
                · show 0 + 1 ≤ SUBGOAL_MAX
                  omega
                · have hl : l ≠ [] := hok l rfl
                  show (if l ≠ [] then (⟨some l, 0, 0, stuck, tc⟩ : PlanState)
                    else ⟨some p, idx, att + 1, stuck, tc⟩).attempts + 1 ≤ SUBGOAL_MAX
                  rw [if_pos hl]
                  show 0 + 1 ≤ SUBGOAL_MAX
                  omega
              · rw [if_neg hcap]
                show att + 1 + 1 ≤ SUBGOAL_MAX
                omega
        · have : processResponseText replan text ⟨some p, idx, att, stuck, tc⟩
              = ⟨some p, idx, att, stuck, tc⟩ := by
            unfold processResponseText
            rw [if_neg ht]
            dsimp only
            rw [if_neg hi]
          rw [this]
          exact hbound

/-- Witness for C8: a no-signal pass at attempt 3 of 5 increments the
counter; at the cap with a raising re-plan the machine advances. -/
theorem C8_subgoal_attempts_amended_witness :
    (processResponseText (Except.ok ["x"]) "still trying"
        ⟨some ["open app", "type text"], 0, 2, 0, false⟩).attempts = 3
    ∧ processResponseText (Except.error ()) "still trying"
        ⟨some ["open app", "type text"], 0, 4, 0, false⟩
      = ⟨some ["open app", "type text"], 1, 0, 0, false⟩
    ∧ processResponseText (Except.ok ["new step"]) "still trying"
        ⟨some ["open app", "type text"], 0, 4, 0, false⟩
      = ⟨some ["new step"], 0, 0, 0, false⟩
    ∧ (processResponseText (Except.ok ["new step"]) "still trying"
        ⟨some ["open app", "type text"], 0, 4, 0, false⟩).attempts + 1
      ≤ SUBGOAL_MAX
    ∧ generate_plan "do the task" (Except.ok "") ≠ [] := by
  refine ⟨?_, ?_, ?_, ?_, ?_⟩
  · exact C8_subgoal_attempts_amended.1 (Except.ok ["x"]) "still trying"
      ["open app", "type text"] 0 2 0 false (by decide) (by decide)
      (by decide) (by decide) (by decide) (by decide) (by decide)
  · exact C8_subgoal_attempts_amended.2.1 "still trying"
      ["open app", "type text"] 0 4 0 false (by decide) (by decide)
      (by decide) (by decide) (by decide) (by decide) (by decide)
  · exact C8_subgoal_attempts_amended.2.2.1 "still trying"
      ["open app", "type text"] ["new step"] 0 4 0 false (by decide) (by decide)
      (by decide) (by decide) (by decide) (by decide) (by decide) (by decide)
  · exact C8_subgoal_attempts_amended.2.2.2.1 (Except.ok ["new step"])
      "still trying" ⟨some ["open app", "type text"], 0, 4, 0, false⟩
      (fun l hl => by cases hl; decide) (by decide)
  · exact C8_subgoal_attempts_amended.2.2.2.2 "do the task" (Except.ok "")

/-! ### Accessibility-tree scanner (`UIScanner`) -/

/-- `uiautomation` control roles: the eleven clickable roles of
`UIScanner.CLICKABLE_TYPES` plus common non-clickable roles. -/
inductive ControlType where
  | button
  | edit
  | hyperlink
  | menuItem
  | listItem
  | tabItem
  | comboBox
  | checkBox
  | radioButton
  | slider
  | treeItem
  | pane
  | text
  | window
  | custom
deriving Repr, DecidableEq

/-- `UIScanner.CLICKABLE_TYPES`. -/
def CLICKABLE_TYPES : List ControlType :=
  [.button, .edit, .hyperlink, .menuItem, .listItem, .tabItem, .comboBox,
   .checkBox, .radioButton, .slider, .treeItem]

/-- A `uiautomation` bounding rectangle, with `width() = right - left`
and `height() = bottom - top`. -/
structure ARect where
  left : Int
  top : Int
  right : Int
  bottom : Int
deriving Repr, DecidableEq

/-- `Rect.width()`. -/
def ARect.width (r : ARect) : Int := r.right - r.left

/-- `Rect.height()`. -/
def ARect.height (r : ARect) : Int := r.bottom - r.top

/-- The properties the traversal reads off one accessibility node;
`propsOk = false` models a node whose property access raises (absorbed
as uninteractive / unextractable by the scanner). -/
structure NodeProps where
  controlType : ControlType
  isEnabled : Bool
  rect : ARect
  name : String
  controlTypeName : String
  automationId : String
  className : String
  propsOk : Bool
deriving Repr, DecidableEq

mutual
/-- An accessibility-tree node; `childrenOk = false` models a node whose
`GetChildren()` raises. -/
inductive UINode where
  | mk (props : NodeProps) (childrenOk : Bool) (children : UIForest)
/-- A sibling list of accessibility-tree nodes. -/
inductive UIForest where
  | nil
  | cons (head : UINode) (tail : UIForest)
end

/-- The node's properties. -/
def UINode.props : UINode → NodeProps
  | .mk p _ _ => p

/-- `UIScanner._is_interactive`: the control type is in the clickable
allow-set, the node is enabled, and the bounding rectangle has positive
width and height; a raising property access yields `False`. -/
def is_interactive (n : NodeProps) : Bool :=
  if !n.propsOk then false
  else if !(CLICKABLE_TYPES.contains n.controlType) then false
  else if !n.isEnabled then false
  else if n.rect.width ≤ 0 || n.rect.height ≤ 0 then false
  else true

/-- `UIScanner._extract_element_info`: filter by visible area and (unless
`include_offscreen`) by intersection with the window rectangle; a raising
property access yields `None`. -/
def extract_element_info (min_visible_area : Int) (n : NodeProps) (element_id : Int)
    (window_rect : ARect) (include_offscreen : Bool) : Option Element :=
  if !n.propsOk then none
  else if n.rect.width * n.rect.height < min_visible_area then none
  else if !include_offscreen ∧
      (n.rect.left + n.rect.width < window_rect.left ∨
       n.rect.left > window_rect.right ∨
       n.rect.top + n.rect.height < window_rect.top ∨
       n.rect.top > window_rect.bottom) then none
  else some
    { id := element_id
      source := "api"
      name := n.name
      ctype := n.controlTypeName
      rect := ⟨n.rect.left, n.rect.top, n.rect.width, n.rect.height⟩
      center := (n.rect.left + n.rect.width.fdiv 2, n.rect.top + n.rect.height.fdiv 2)
      automationId := n.automationId
      className := n.className }

/-- The element-emission step at one node of `_traverse_ui_tree`:
check interactivity, extract, append and bump the id counter. -/
def emitStep (min_visible_area : Int) (window_rect : ARect) (include_offscreen : Bool)
    (props : NodeProps) (acc : List Element × Int) : List Element × Int :=
  if is_interactive props then
    match extract_element_info min_visible_area props acc.2 window_rect
        include_offscreen with
    | some e => (acc.1 ++ [e], acc.2 + 1)
    | none => acc
  else acc

mutual
/-- `UIScanner._traverse_ui_tree` on one node: stop beyond `max_depth`,
emit the node if it qualifies, then visit the children (skipped when
`GetChildren()` raises); every failure is local to its node. -/
def traverseNode (min_visible_area : Int) (max_depth : Nat) (window_rect : ARect)
    (include_offscreen : Bool) :
    UINode → Nat → List Element × Int → List Element × Int
  | .mk props childrenOk children, depth, acc =>
    if max_depth < depth then acc
    else if childrenOk then
      traverseForest min_visible_area max_depth window_rect include_offscreen
        children (depth + 1)
        (emitStep min_visible_area window_rect include_offscreen props acc)
    else emitStep min_visible_area window_rect include_offscreen props acc
/-- `UIScanner._traverse_ui_tree` over a sibling list. -/
def traverseForest (min_visible_area : Int) (max_depth : Nat) (window_rect : ARect)
    (include_offscreen : Bool) :
    UIForest → Nat → List Element × Int → List Element × Int
  | .nil, _, acc => acc
  | .cons c cs, depth, acc =>
    traverseForest min_visible_area max_depth window_rect include_offscreen cs depth
      (traverseNode min_visible_area max_depth window_rect include_offscreen c depth acc)
end

/-- The window title seen by the browser / electron classification:
`(active_window.Name or "Unknown Window").lower()`. -/
def windowLower (w : UINode) : String :=
  strLower (if w.props.name = "" then "Unknown Window" else w.props.name)

/-- The electron-app markers excluded from the deep browser scan. -/
def ELECTRON_APPS : List String :=
  ["visual studio code", "code -", "discord", "slack", "spotify", "teams", "electron"]

/-- The strict browser detection of `scan_active_window`. -/
def is_browser_name (window_lower : String) : Bool :=
  strContains window_lower "google chrome" ||
  strContains window_lower "microsoft edge" ||
  (strContains window_lower "chrome" && !strContains window_lower "chromium")

/-- The electron-app exclusion of `scan_active_window`. -/
def is_electron_name (window_lower : String) : Bool :=
  ELECTRON_APPS.any (fun app => strContains window_lower app)

/-- The observable outcome of one `scan_active_window` call: the element
list or the hard error, the sequence of `SetGlobalSearchTimeout` calls it
made, the final global timeout, and the final `self.max_depth`. -/
structure ScanOutcome where
  result : Except String (List Element)
  timeoutCalls : List Nat
  timeoutEnd : Nat
  maxDepthEnd : Nat
deriving Repr

/-- `UIScanner.scan_active_window`: hard error when no foreground window
exists; on the browser path the global search timeout is set to 1 for the
render-surface search and set back to 10 in the `finally` block, and a
found render surface becomes the traversal root at depth 20; `max_depth`
is restored before returning. `window = none` models the absence of a
foreground window and `findRenderWidget` the outcome of the bounded
`Control(searchDepth=8, ClassName="Chrome_RenderWidgetHostHWND")` search. -/
def scan_active_window (min_visible_area : Int) (max_depth : Nat) (timeout0 : Nat)
    (window : Option UINode) (findRenderWidget : Except Unit (Option UINode))
    (include_offscreen : Bool) : ScanOutcome :=
  match window with
  | none =>
    { result := .error "Failed to scan active window: No active window found"
      timeoutCalls := []
      timeoutEnd := timeout0
      maxDepthEnd := max_depth }
  | some w =>
    if is_browser_name (windowLower w) && !is_electron_name (windowLower w) then
      match findRenderWidget with
      | .ok (some render_widget) =>
        { result := .ok (traverseNode min_visible_area 20 render_widget.props.rect
            include_offscreen render_widget 0 ([], 1)).1
          timeoutCalls := [1, 10]
          timeoutEnd := 10
          maxDepthEnd := max_depth }
      | .ok none =>
        { result := .ok (traverseNode min_visible_area max_depth w.props.rect
            include_offscreen w 0 ([], 1)).1
          timeoutCalls := [1, 10]
          timeoutEnd := 10
          maxDepthEnd := max_depth }
      | .error _ =>
        { result := .ok (traverseNode min_visible_area max_depth w.props.rect
            include_offscreen w 0 ([], 1)).1
          timeoutCalls := [1, 10]
          timeoutEnd := 10
          maxDepthEnd := max_depth }
    else
      { result := .ok (traverseNode min_visible_area max_depth w.props.rect
          include_offscreen w 0 ([], 1)).1
        timeoutCalls := []
        timeoutEnd := timeout0
        maxDepthEnd := max_depth }

theorem is_interactive_spec (n : NodeProps) (h : is_interactive n = true) :
    n.propsOk = true ∧ 0 < n.rect.width ∧ 0 < n.rect.height := by
  unfold is_interactive at h
  split_ifs at h with h1 h2 h3 h4
  simp only [Bool.not_eq_true', Bool.not_eq_false] at h1
  simp only [Bool.or_eq_true, not_or, decide_eq_true_eq] at h4
  refine ⟨h1, ?_, ?_⟩ <;> omega

theorem is_interactive_props_fail (n : NodeProps) (h : n.propsOk = false) :
    is_interactive n = false := by
  unfold is_interactive
  rw [h]
  rfl

theorem extract_some_fields (m : Int) (n : NodeProps) (eid : Int) (wr : ARect)
    (inc : Bool) (e : Element)
    (hx : extract_element_info m n eid wr inc = some e) :
    e.id = eid ∧ e.rect = ⟨n.rect.left, n.rect.top, n.rect.width, n.rect.height⟩
    ∧ m ≤ n.rect.width * n.rect.height := by
  unfold extract_element_info at hx
  split_ifs at hx with h1 h2 h3
  injection hx with he
  subst he
  refine ⟨rfl, rfl, by omega⟩

/-- The element invariant of C4. -/
def GoodElem (m : Int) (e : Element) : Prop :=
  0 < e.rect.w ∧ 0 < e.rect.h ∧ m ≤ e.rect.w * e.rect.h ∧ 1 ≤ e.id

theorem emitStep_inv (m : Int) (wr : ARect) (inc : Bool) (props : NodeProps)
    (acc : List Element × Int) (hid : 1 ≤ acc.2)
    (hall : ∀ e ∈ acc.1, GoodElem m e) :
    1 ≤ (emitStep m wr inc props acc).2
    ∧ ∀ e ∈ (emitStep m wr inc props acc).1, GoodElem m e := by
  unfold emitStep
  split_ifs with hint
  · cases hx : extract_element_info m props acc.2 wr inc with
    | none => exact ⟨hid, hall⟩
    | some e =>
      obtain ⟨hid', hrect, harea⟩ := extract_some_fields m props acc.2 wr inc e hx
      obtain ⟨hok, hw, hh⟩ := is_interactive_spec props hint
      constructor
      · simp only
        omega
      · intro e' he'
        simp only [List.mem_append, List.mem_singleton] at he'
        rcases he' with he' | he'
        · exact hall e' he'
        · subst he'
          refine ⟨?_, ?_, ?_, ?_⟩
          · rw [hrect]
            exact hw
          · rw [hrect]
            exact hh
          · rw [hrect]
            exact harea
          · rw [hid']
            exact hid
  · exact ⟨hid, hall⟩

mutual
theorem traverseNode_inv (m : Int) (maxD : Nat) (wr : ARect) (inc : Bool) :
    ∀ (n : UINode) (depth : Nat) (acc : List Element × Int),
      1 ≤ acc.2 → (∀ e ∈ acc.1, GoodElem m e) →
      1 ≤ (traverseNode m maxD wr inc n depth acc).2
      ∧ ∀ e ∈ (traverseNode m maxD wr inc n depth acc).1, GoodElem m e
  | .mk props cok children, depth, acc => by
    intro hid hall
    rw [traverseNode]
    split_ifs with hdepth hcok
    · exact ⟨hid, hall⟩
    · have h1 := emitStep_inv m wr inc props acc hid hall
      exact traverseForest_inv m maxD wr inc children (depth + 1) _ h1.1 h1.2
    · exact emitStep_inv m wr inc props acc hid hall

theorem traverseForest_inv (m : Int) (maxD : Nat) (wr : ARect) (inc : Bool) :
    ∀ (f : UIForest) (depth : Nat) (acc : List Element × Int),
      1 ≤ acc.2 → (∀ e ∈ acc.1, GoodElem m e) →
      1 ≤ (traverseForest m maxD wr inc f depth acc).2
      ∧ ∀ e ∈ (traverseForest m maxD wr inc f depth acc).1, GoodElem m e
  | .nil, depth, acc => fun hid hall => ⟨hid, hall⟩
  | .cons c cs, depth, acc => by
    intro hid hall
    rw [traverseForest]
    have h1 := traverseNode_inv m maxD wr inc c depth acc hid hall
    exact traverseForest_inv m maxD wr inc cs depth _ h1.1 h1.2
end

/-- C4: every element in a successful scan has positive width and height,
area at least the configured minimum visible area, and id at least 1. -/
theorem C4_scanner_element_invariants :
    ∀ (min_visible_area : Int) (max_depth timeout0 : Nat) (window : Option UINode)
      (findRenderWidget : Except Unit (Option UINode)) (include_offscreen : Bool)
      (l : List Element),
      (scan_active_window min_visible_area max_depth timeout0 window
          findRenderWidget include_offscreen).result = .ok l →
      ∀ e ∈ l, 0 < e.rect.w ∧ 0 < e.rect.h
        ∧ min_visible_area ≤ e.rect.w * e.rect.h ∧ 1 ≤ e.id := by
  intro m maxD t0 window find inc l hl
  have key : ∀ (md : Nat) (wr : ARect) (root : UINode),
      ∀ e ∈ (traverseNode m md wr inc root 0 ([], 1)).1, GoodElem m e :=
    fun md wr root =>
      (traverseNode_inv m md wr inc root 0 ([], 1) (by norm_num)
        (by intro e he; simp at he)).2
  rcases window with _ | w
  · exact absurd hl (by simp [scan_active_window])
  · unfold scan_active_window at hl
    dsimp only at hl
    split_ifs at hl with hb
    · rcases find with e | ow
      · dsimp only at hl
        simp only [Except.ok.injEq] at hl
        subst hl
        exact key maxD w.props.rect w
      · rcases ow with _ | widget
        · dsimp only at hl
          simp only [Except.ok.injEq] at hl
          subst hl
          exact key maxD w.props.rect w
        · dsimp only at hl
          simp only [Except.ok.injEq] at hl
          subst hl
          exact key 20 widget.props.rect widget
    · dsimp only at hl
      simp only [Except.ok.injEq] at hl
      subst hl
      exact key maxD w.props.rect w

/-- Witness for C4: a concrete one-button window scan yields one element
satisfying the invariants. -/
theorem C4_scanner_element_invariants_witness :
    0 < (⟨1, "api", "OK", "Button", ⟨0, 0, 10, 10⟩, (5, 5), "a1", "c1"⟩ :
        Element).rect.w
    ∧ 0 < (⟨1, "api", "OK", "Button", ⟨0, 0, 10, 10⟩, (5, 5), "a1", "c1"⟩ :
        Element).rect.h
    ∧ (25 : Int) ≤ (⟨1, "api", "OK", "Button", ⟨0, 0, 10, 10⟩, (5, 5), "a1", "c1"⟩ :
        Element).rect.w * (⟨1, "api", "OK", "Button", ⟨0, 0, 10, 10⟩, (5, 5), "a1",
        "c1"⟩ : Element).rect.h
    ∧ 1 ≤ (⟨1, "api", "OK", "Button", ⟨0, 0, 10, 10⟩, (5, 5), "a1", "c1"⟩ :
        Element).id :=
  C4_scanner_element_invariants 25 15 10
    (some (.mk ⟨.button, true, ⟨0, 0, 10, 10⟩, "OK", "Button", "a1", "c1", true⟩
      true .nil))
    (Except.ok none) false
    [⟨1, "api", "OK", "Button", ⟨0, 0, 10, 10⟩, (5, 5), "a1", "c1"⟩]
    (by rfl)
    ⟨1, "api", "OK", "Button", ⟨0, 0, 10, 10⟩, (5, 5), "a1", "c1"⟩
    (by simp)

theorem emitStep_not_interactive (m : Int) (wr : ARect) (inc : Bool)
    (props : NodeProps) (acc : List Element × Int)
    (h : is_interactive props = false) : emitStep m wr inc props acc = acc := by
  unfold emitStep
  rw [h]
  rfl

theorem traverseNode_broken (m : Int) (maxD : Nat) (wr : ARect) (inc : Bool)
    (props : NodeProps) (children : UIForest) (depth : Nat)
    (acc : List Element × Int) (h : props.propsOk = false) :
    traverseNode m maxD wr inc (.mk props false children) depth acc = acc := by
  rw [traverseNode]
  by_cases hdepth : maxD < depth
  · rw [if_pos hdepth]
  · rw [if_neg hdepth]
    show emitStep m wr inc props acc = acc
    exact emitStep_not_interactive m wr inc props acc
      (is_interactive_props_fail props h)

/-- C6: the scan errors exactly on the absence of a foreground window —
any present window yields an `ok` element list — and a node whose
property access and child enumeration both raise is skipped without
disturbing the traversal of its siblings. -/
theorem C6_scan_failure_semantics :
    (∀ (m : Int) (maxD t0 : Nat) (find : Except Unit (Option UINode)) (inc : Bool),
        (scan_active_window m maxD t0 none find inc).result
          = .error "Failed to scan active window: No active window found")
    ∧ (∀ (m : Int) (maxD t0 : Nat) (w : UINode)
        (find : Except Unit (Option UINode)) (inc : Bool),
        ∃ l, (scan_active_window m maxD t0 (some w) find inc).result = .ok l)
    ∧ (∀ (m : Int) (maxD : Nat) (wr : ARect) (inc : Bool) (props : NodeProps)
        (children rest : UIForest) (depth : Nat) (acc : List Element × Int),
        props.propsOk = false →
        traverseForest m maxD wr inc (.cons (.mk props false children) rest) depth acc
          = traverseForest m maxD wr inc rest depth acc) := by
  refine ⟨fun m maxD t0 find inc => rfl, ?_, ?_⟩
  · intro m maxD t0 w find inc
    unfold scan_active_window
    dsimp only
    split_ifs with hb
    · rcases find with e | ow
      · exact ⟨_, rfl⟩
      · rcases ow with _ | widget
        · exact ⟨_, rfl⟩
        · exact ⟨_, rfl⟩
    · exact ⟨_, rfl⟩
  · intro m maxD wr inc props children rest depth acc h
    rw [traverseForest, traverseNode_broken m maxD wr inc props children depth acc h]

/-- Witness for C6: a concrete broken sibling contributes nothing. -/
theorem C6_scan_failure_semantics_witness :
    (∃ l, (scan_active_window 25 15 10
        (some (.mk ⟨.button, true, ⟨0, 0, 10, 10⟩, "OK", "Button", "a1", "c1", true⟩
          true .nil)) (Except.ok none) false).result = .ok l)
    ∧ traverseForest 25 15 ⟨0, 0, 10, 10⟩ false
        (.cons (.mk ⟨.button, true, ⟨0, 0, 10, 10⟩, "Bad", "Button", "", "", false⟩
          false .nil) .nil) 0 ([], 1)
      = traverseForest 25 15 ⟨0, 0, 10, 10⟩ false .nil 0 ([], 1) :=
  ⟨C6_scan_failure_semantics.2.1 25 15 10
      (.mk ⟨.button, true, ⟨0, 0, 10, 10⟩, "OK", "Button", "a1", "c1", true⟩ true .nil)
      (Except.ok none) false,
   C6_scan_failure_semantics.2.2 25 15 ⟨0, 0, 10, 10⟩ false
      ⟨.button, true, ⟨0, 0, 10, 10⟩, "Bad", "Button", "", "", false⟩ .nil .nil 0
      ([], 1) rfl⟩

/-- C7: on the browser path the global search timeout is set to 1 and then
unconditionally set back to 10, whatever the render-surface search does;
`max_depth` is restored on every return path; and a missing render surface
(not found or raising) degrades to scanning the window frame at default
depth. -/
theorem C7_browser_timeout_and_depth_restored :
    (∀ (m : Int) (maxD t0 : Nat) (w : UINode)
        (find : Except Unit (Option UINode)) (inc : Bool),
        (is_browser_name (windowLower w) && !is_electron_name (windowLower w))
          = true →
        (scan_active_window m maxD t0 (some w) find inc).timeoutCalls = [1, 10]
        ∧ (scan_active_window m maxD t0 (some w) find inc).timeoutEnd = 10)
    ∧ (∀ (m : Int) (maxD t0 : Nat) (window : Option UINode)
        (find : Except Unit (Option UINode)) (inc : Bool),
        (scan_active_window m maxD t0 window find inc).maxDepthEnd = maxD)
    ∧ (∀ (m : Int) (maxD t0 : Nat) (w : UINode) (inc : Bool),
        (scan_active_window m maxD t0 (some w) (.ok none) inc).result
          = .ok (traverseNode m maxD w.props.rect inc w 0 ([], 1)).1
        ∧ (scan_active_window m maxD t0 (some w) (.error ()) inc).result
          = .ok (traverseNode m maxD w.props.rect inc w 0 ([], 1)).1) := by
  refine ⟨?_, ?_, ?_⟩
  · intro m maxD t0 w find inc hb
    unfold scan_active_window
    dsimp only
    rw [if_pos hb]
    rcases find with e | ow
    · exact ⟨rfl, rfl⟩
    · rcases ow with _ | widget
      · exact ⟨rfl, rfl⟩
      · exact ⟨rfl, rfl⟩
  · intro m maxD t0 window find inc
    rcases window with _ | w
    · rfl
    · unfold scan_active_window
      dsimp only
      split_ifs with hb
      · rcases find with e | ow
        · rfl
        · rcases ow with _ | widget
          · rfl
          · rfl
      · rfl
  · intro m maxD t0 w inc
    constructor
    · unfold scan_active_window
      dsimp only
      split_ifs with hb
      · rfl
      · rfl
    · unfold scan_active_window
      dsimp only
      split_ifs with hb
      · rfl
      · rfl

/-- Witness for C7: a window titled like Chrome takes the browser path and
ends with the timeout back at 10. -/
theorem C7_browser_timeout_and_depth_restored_witness :
    (scan_active_window 25 15 10
        (some (.mk ⟨.pane, true, ⟨0, 0, 10, 10⟩, "Site - Google Chrome", "Pane",
          "", "", true⟩ true .nil)) (Except.error ()) false).timeoutCalls = [1, 10]
    ∧ (scan_active_window 25 15 10
        (some (.mk ⟨.pane, true, ⟨0, 0, 10, 10⟩, "Site - Google Chrome", "Pane",
          "", "", true⟩ true .nil)) (Except.error ()) false).timeoutEnd = 10 :=
  C7_browser_timeout_and_depth_restored.1 25 15 10
    (.mk ⟨.pane, true, ⟨0, 0, 10, 10⟩, "Site - Google Chrome", "Pane", "", "", true⟩
      true .nil)
    (Except.error ()) false (by decide)

/-! ### Action dispatcher (`AutonomousAgent.execute_function_call`) -/

/-- A Python value as it may arrive in `args["element_id"]`; `other`
carries `type(x).__name__` (e.g. `"NoneType"`, `"float"`). -/
inductive PyVal where
  | int (n : Int)
  | str (s : String)
  | other (typeName : String)
deriving Repr, DecidableEq

/-- Python `int(s)` on a decimal string: optional surrounding whitespace,
an optional sign, then at least one digit (digit-group underscores are not
modelled); `none` models `ValueError`. -/
def pyParseInt (s : String) : Option Int :=
  match ((s.data.dropWhile Char.isWhitespace).reverse.dropWhile
      Char.isWhitespace).reverse with
  | [] => none
  | c :: rest =>
    if c = '-' then
      if rest ≠ [] ∧ rest.all Char.isDigit then
        some (-(rest.foldl (fun a d => a * 10 + ((d.toNat : Int) - 48)) 0))
      else none
    else if c = '+' then
      if rest ≠ [] ∧ rest.all Char.isDigit then
        some (rest.foldl (fun a d => a * 10 + ((d.toNat : Int) - 48)) 0)
      else none
    else
      if (c :: rest).all Char.isDigit then
        some ((c :: rest).foldl (fun a d => a * 10 + ((d.toNat : Int) - 48)) 0)
      else none

/-- Python `str.capitalize()`. -/
def pyCapitalize (s : String) : String :=
  match s.data with
  | [] => ""
  | c :: cs => String.mk (c.toUpper :: cs.map Char.toLower)

/-- The observable outcome of the `click_element_by_id` branch of
`execute_function_call`: the result string handed back to the batch loop
and the click that was performed, if any, at its screen coordinates. -/
structure ClickOutcome where
  result : String
  click : Option (Int × Int)
deriving Repr, DecidableEq

/-- The integer-id part of the `click_element_by_id` branch: empty-scan
check, id lookup, then the click through the controller. -/
def clickByIdInt (element_id : Int) (button : String) (clicks : Nat)
    (current_elements : List Element) : ClickOutcome :=
  if current_elements = [] then
    { result := "No UI elements were detected in the current scan. Cannot use click_element_by_id."
      click := none }
  else
    match current_elements.find? (fun e => e.id = element_id) with
    | none =>
      { result := "Element ID " ++ toString element_id ++ " not found in current scan"
        click := none }
    | some element =>
      { result := pyCapitalize (if clicks = 2 then "double-clicked"
            else button ++ "-clicked") ++ " element #" ++ toString element_id
          ++ " ('" ++ (if element.name = "" then "(no name)" else element.name)
          ++ "') at (" ++ toString element.center.1 ++ ", "
          ++ toString element.center.2 ++ ")"
        click := some element.center }

/-- The `click_element_by_id` branch of `execute_function_call`:
string ids are converted with `int(...)`, non-integer values are rejected
with an error result string, and every error path returns normally with
no click performed. -/
def click_element_by_id (element_id : PyVal) (button : String) (clicks : Nat)
    (current_elements : List Element) : ClickOutcome :=
  match element_id with
  | .str s =>
    match pyParseInt s with
    | some n => clickByIdInt n button clicks current_elements
    | none =>
      { result := "Invalid element_id: '" ++ s ++ "' is not a valid integer"
        click := none }
  | .int n => clickByIdInt n button clicks current_elements
  | .other typeName =>
    { result := "Invalid element_id type: " ++ typeName ++ ". Must be integer."
      click := none }

/-- One semantic action request, as dispatched by `execute_function_call`;
the other handled actions are abstracted by their result string. -/
inductive FunctionCall where
  | clickById (element_id : PyVal) (button : String) (clicks : Nat)
  | otherAction (result : String)

/-- `execute_function_call` restricted to its returned result string. -/
def execute_function_call (current_elements : List Element) :
    FunctionCall → String
  | .clickById element_id button clicks =>
    (click_element_by_id element_id button clicks current_elements).result
  | .otherAction r => r

/-- The `for func_call in function_calls` loop of `run_task`: every call
executes and contributes one result string. -/
def executeBatch (current_elements : List Element)
    (function_calls : List FunctionCall) : List String :=
  function_calls.map (execute_function_call current_elements)

/-- C10: `click_element_by_id` returns an error result string and performs
no click on an empty scan or an unknown id; an integer-parsable string id
is converted and accepted; a value that is neither an integer nor an
integer-parsable string yields an error result string; and every call in
a batch executes and returns a result. -/
theorem C10_click_by_id_dispatch :
    (∀ (n : Int) (button : String) (clicks : Nat),
        click_element_by_id (.int n) button clicks []
          = { result := "No UI elements were detected in the current scan. Cannot use click_element_by_id."
              click := none })
    ∧ (∀ (n : Int) (button : String) (clicks : Nat) (elems : List Element),
        elems ≠ [] → (∀ e ∈ elems, e.id ≠ n) →
        click_element_by_id (.int n) button clicks elems
          = { result := "Element ID " ++ toString n ++ " not found in current scan"
              click := none })
    ∧ (∀ (s : String) (n : Int) (button : String) (clicks : Nat)
        (elems : List Element), pyParseInt s = some n →
        click_element_by_id (.str s) button clicks elems
          = click_element_by_id (.int n) button clicks elems)
    ∧ (∀ (s button : String) (clicks : Nat) (elems : List Element),
        pyParseInt s = none →
        click_element_by_id (.str s) button clicks elems
          = { result := "Invalid element_id: '" ++ s ++ "' is not a valid integer"
              click := none })
    ∧ (∀ (typeName button : String) (clicks : Nat) (elems : List Element),
        click_element_by_id (.other typeName) button clicks elems
          = { result := "Invalid element_id type: " ++ typeName ++ ". Must be integer."
              click := none })
    ∧ (∀ (elems : List Element) (calls : List FunctionCall),
        (executeBatch elems calls).length = calls.length) := by
  refine ⟨?_, ?_, ?_, ?_, ?_, ?_⟩
  · intro n button clicks
    rfl
  · intro n button clicks elems hne hnone
    have hfind : elems.find? (fun e => e.id = n) = none := by
      rw [List.find?_eq_none]
      intro e he
      simpa using hnone e he
    unfold click_element_by_id clickByIdInt
    dsimp only
    rw [if_neg hne, hfind]
  · intro s n button clicks elems hs
    unfold click_element_by_id
    dsimp only
    rw [hs]
  · intro s button clicks elems hs
    unfold click_element_by_id
    dsimp only
    rw [hs]
  · intro typeName button clicks elems
    rfl
  · intro elems calls
    unfold executeBatch
    exact List.length_map calls (execute_function_call elems)

/-- Witness for C10 at concrete inputs: missing id, converted string id,
unparsable string id, wrong type, and a two-call batch. -/
theorem C10_click_by_id_dispatch_witness :
    click_element_by_id (.int 3) "left" 1
        [⟨1, "api", "OK", "Button", ⟨0, 0, 10, 10⟩, (5, 5), "", ""⟩]
      = { result := "Element ID 3 not found in current scan", click := none }
    ∧ click_element_by_id (.str "7") "left" 1 []
      = click_element_by_id (.int 7) "left" 1 []
    ∧ click_element_by_id (.str "x7") "left" 1 []
      = { result := "Invalid element_id: 'x7' is not a valid integer"
          click := none }
    ∧ click_element_by_id (.other "NoneType") "left" 1 []
      = { result := "Invalid element_id type: NoneType. Must be integer."
          click := none }
    ∧ (executeBatch [] [.clickById (.int 3) "left" 1, .otherAction "Waited for 2 seconds"]).length
      = 2 :=
  ⟨C10_click_by_id_dispatch.2.1 3 "left" 1
      [⟨1, "api", "OK", "Button", ⟨0, 0, 10, 10⟩, (5, 5), "", ""⟩]
      (by simp) (by decide),
   C10_click_by_id_dispatch.2.2.1 "7" 7 "left" 1 [] (by rfl),
   C10_click_by_id_dispatch.2.2.2.1 "x7" "left" 1 [] (by rfl),
   C10_click_by_id_dispatch.2.2.2.2.1 "NoneType" "left" 1 [],
   C10_click_by_id_dispatch.2.2.2.2.2 []
     [.clickById (.int 3) "left" 1, .otherAction "Waited for 2 seconds"]⟩

/-- Witness for C2 at concrete rectangles. -/
theorem C2_iou_algebra_witness :
    calculate_iou ⟨0, 0, 4, 5⟩ ⟨0, 0, 4, 5⟩ = 1
    ∧ calculate_iou ⟨0, 0, 4, 5⟩ ⟨10, 0, 4, 5⟩ = 0
    ∧ calculate_iou ⟨0, 0, 4, 5⟩ ⟨2, 3, 6, 1⟩ = calculate_iou ⟨2, 3, 6, 1⟩ ⟨0, 0, 4, 5⟩
    ∧ calculate_iou ⟨0, 0, 0, 0⟩ ⟨0, 0, 0, 0⟩ = 0 :=
  ⟨C2_iou_algebra.1 ⟨0, 0, 4, 5⟩ (by norm_num) (by norm_num),
   C2_iou_algebra.2.1 ⟨0, 0, 4, 5⟩ ⟨10, 0, 4, 5⟩ (Or.inl (by norm_num)),
   C2_iou_algebra.2.2.1 ⟨0, 0, 4, 5⟩ ⟨2, 3, 6, 1⟩,
   C2_iou_algebra.2.2.2 ⟨0, 0, 0, 0⟩ ⟨0, 0, 0, 0⟩ (by norm_num [unionArea, interArea])⟩

end Agent
